import Mathlib

/-!
Shallow embedding of `src/tsdown.config.ts` from the
typescript-library-template repository.

The config file reads `process.env.NODE_ENV` — a possibly absent string,
modelled here as `Option String` (`none` = the variable is undefined) —
and exports a single configuration record built by one expression.  The
record is embedded as a Lean structure and the exported expression as a
function of the environment flag.
-/

/-- Result of the `outExtensions` callback in the source: the object
mapping the JavaScript output kind (`js`) and the declaration output kind
(`dts`) to file-extension strings. -/
structure OutExtensionsMap where
  js : String
  dts : String
deriving Repr, DecidableEq

/-- The configuration record handed to the external bundler by
`defineConfig` in `src/tsdown.config.ts`.  `outExtensions` is a callback
in the source (`() => ({ ... })`), so it is modelled as a function out of
`Unit`. -/
structure BuildConfiguration where
  entry : List String
  format : List String
  dts : Bool
  clean : Bool
  sourcemap : Bool
  minify : Bool
  target : String
  outDir : String
  outExtensions : Unit → OutExtensionsMap

/-- Shallow embedding of the argument of `defineConfig` in
`src/tsdown.config.ts`, as a function of the environment flag
`env = process.env.NODE_ENV`.  JavaScript `env === "production"` with a
possibly-undefined `env` is `env == some "production"` on
`Option String`. -/
def getConfiguration (env : Option String) : BuildConfiguration :=
  { entry := ["src/index.ts", "src/**/*.ts"]
  , format := ["esm"]
  , dts := true
  , clean := true
  , sourcemap := true
  , minify := env == some "production"
  , target := "es2020"
  , outDir := if env == some "production" then "dist" else "lib"
  , outExtensions := fun _ => { js := ".js", dts := ".d.ts" } }

/-- The record returned for the production sentinel, written out field by
field. -/
def productionConfig : BuildConfiguration :=
  { entry := ["src/index.ts", "src/**/*.ts"]
  , format := ["esm"]
  , dts := true
  , clean := true
  , sourcemap := true
  , minify := true
  , target := "es2020"
  , outDir := "dist"
  , outExtensions := fun _ => { js := ".js", dts := ".d.ts" } }

/-- The record returned for every non-production flag, written out field
by field. -/
def developmentConfig : BuildConfiguration :=
  { entry := ["src/index.ts", "src/**/*.ts"]
  , format := ["esm"]
  , dts := true
  , clean := true
  , sourcemap := true
  , minify := false
  , target := "es2020"
  , outDir := "lib"
  , outExtensions := fun _ => { js := ".js", dts := ".d.ts" } }

/-- Any flag equal to the production sentinel selects the production
record. -/
theorem getConfiguration_eq_production (env : Option String)
    (h : (env == some "production") = true) :
    getConfiguration env = productionConfig := by
  simp only [getConfiguration, productionConfig, h, if_pos]

/-- Any flag different from the production sentinel selects the
development record. -/
theorem getConfiguration_eq_development (env : Option String)
    (h : (env == some "production") = false) :
    getConfiguration env = developmentConfig := by
  simp only [getConfiguration, developmentConfig, h, Bool.false_eq_true,
    if_neg, ite_false]

/-- Claim C1: for every environment flag equal to the production sentinel,
the returned configuration has `outDir` "dist" and `minify` true; in
particular its `format` is the list with the single element "esm" and its
`dts` flag is true. -/
theorem production_build_fields (env : Option String)
    (h : env = some "production") :
    (getConfiguration env).outDir = "dist" ∧
    (getConfiguration env).minify = true ∧
    (getConfiguration env).format = ["esm"] ∧
    (getConfiguration env).dts = true := by
  subst h
  refine ⟨by decide, by decide, rfl, rfl⟩

/-- Claim C1 witness: the concrete scenario at flag = "production". -/
theorem production_build_fields_witness :
    (getConfiguration (some "production")).outDir = "dist" ∧
    (getConfiguration (some "production")).minify = true ∧
    (getConfiguration (some "production")).format = ["esm"] ∧
    (getConfiguration (some "production")).dts = true :=
  production_build_fields (some "production") rfl

/-- Claim C2: for every environment flag that is not the production
sentinel (including the absent flag `none`), the returned configuration
has `outDir` "lib" and `minify` false; its `format` is ["esm"] and its
`dts` flag is true. -/
theorem nonproduction_build_fields (env : Option String)
    (h : env ≠ some "production") :
    (getConfiguration env).outDir = "lib" ∧
    (getConfiguration env).minify = false ∧
    (getConfiguration env).format = ["esm"] ∧
    (getConfiguration env).dts = true := by
  have hb : (env == some "production") = false := beq_eq_false_iff_ne.mpr h
  rw [getConfiguration_eq_development env hb]
  exact ⟨rfl, rfl, rfl, rfl⟩

/-- Claim C2 witness: the concrete scenario at the absent (undefined)
flag. -/
theorem nonproduction_build_fields_witness :
    (getConfiguration none).outDir = "lib" ∧
    (getConfiguration none).minify = false ∧
    (getConfiguration none).format = ["esm"] ∧
    (getConfiguration none).dts = true :=
  nonproduction_build_fields none (by decide)

/-- Claim C3: the configuration supplier is deterministic in the single
environment flag: equal flag values give identical records; the flag is
its only input. -/
theorem getConfiguration_deterministic (e1 e2 : Option String)
    (h : e1 = e2) :
    getConfiguration e1 = getConfiguration e2 := by
  rw [h]

/-- Claim C3 witness: determinism at the concrete production flag. -/
theorem getConfiguration_deterministic_witness :
    getConfiguration (some "production") = getConfiguration (some "production") :=
  getConfiguration_deterministic (some "production") (some "production") rfl

/-- Claim C4: the supplier is total: for every flag value (the sentinel,
any other string, or the absent flag) it returns a fully populated record
— every field carries a determinate value — and never fails. -/
theorem getConfiguration_total (env : Option String) :
    (getConfiguration env).entry = ["src/index.ts", "src/**/*.ts"] ∧
    (getConfiguration env).format = ["esm"] ∧
    (getConfiguration env).dts = true ∧
    (getConfiguration env).clean = true ∧
    (getConfiguration env).sourcemap = true ∧
    ((getConfiguration env).minify = true ∨ (getConfiguration env).minify = false) ∧
    (getConfiguration env).target = "es2020" ∧
    ((getConfiguration env).outDir = "dist" ∨ (getConfiguration env).outDir = "lib") ∧
    (getConfiguration env).outExtensions () = { js := ".js", dts := ".d.ts" } := by
  refine ⟨rfl, rfl, rfl, rfl, rfl, ?_, rfl, ?_, rfl⟩
  · cases h : (env == some "production") <;> simp [getConfiguration, h]
  · cases h : (env == some "production") <;> simp [getConfiguration, h]

/-- Claim C5: `dts`, `clean` and `sourcemap` are true for every input
flag. -/
theorem always_true_flags (env : Option String) :
    (getConfiguration env).dts = true ∧
    (getConfiguration env).clean = true ∧
    (getConfiguration env).sourcemap = true :=
  ⟨rfl, rfl, rfl⟩

/-- Claim C6: for every input flag, the `outExtensions` mapping sends the
JavaScript output kind to ".js" and the declaration output kind to
".d.ts". -/
theorem outExtensions_fixed (env : Option String) :
    ((getConfiguration env).outExtensions ()).js = ".js" ∧
    ((getConfiguration env).outExtensions ()).dts = ".d.ts" :=
  ⟨rfl, rfl⟩

/-- Claim C7: every field other than `outDir` and `minify` is constant
across any two flag inputs, while `outDir` and `minify` each take one of
exactly two hard-coded values selected by the flag. -/
theorem fields_constant_except_outDir_minify (e1 e2 : Option String) :
    (getConfiguration e1).entry = (getConfiguration e2).entry ∧
    (getConfiguration e1).format = (getConfiguration e2).format ∧
    (getConfiguration e1).dts = (getConfiguration e2).dts ∧
    (getConfiguration e1).clean = (getConfiguration e2).clean ∧
    (getConfiguration e1).sourcemap = (getConfiguration e2).sourcemap ∧
    (getConfiguration e1).target = (getConfiguration e2).target ∧
    (getConfiguration e1).outExtensions = (getConfiguration e2).outExtensions ∧
    (getConfiguration e1).minify = (e1 == some "production") ∧
    (getConfiguration e1).outDir =
      (if e1 == some "production" then "dist" else "lib") :=
  ⟨rfl, rfl, rfl, rfl, rfl, rfl, rfl, rfl, rfl⟩

/-- Claim C8: the supplier's image has exactly two elements: every output
is the production record or the development record, the two differ, and
the boolean predicate flag == "production" decides which is returned. -/
theorem getConfiguration_image_two (env : Option String) :
    (getConfiguration env = productionConfig ∨
      getConfiguration env = developmentConfig) ∧
    productionConfig ≠ developmentConfig ∧
    (getConfiguration env = productionConfig ↔
      (env == some "production") = true) := by
  have hdist : productionConfig ≠ developmentConfig := by
    intro h
    exact absurd (congrArg BuildConfiguration.outDir h) (by decide)
  refine ⟨?_, hdist, ?_⟩
  · cases h : (env == some "production") with
    | false => exact Or.inr (getConfiguration_eq_development env h)
    | true => exact Or.inl (getConfiguration_eq_production env h)
  · constructor
    · intro heq
      cases h : (env == some "production") with
      | false =>
        exact absurd (heq.symm.trans (getConfiguration_eq_development env h)) hdist
      | true => rfl
    · exact getConfiguration_eq_production env

/-- Claim C9: for every flag, `minify` is true exactly when `outDir` is
"dist" and false exactly when `outDir` is "lib", and the two output
directories are distinct. -/
theorem minify_outDir_coupling (env : Option String) :
    ((getConfiguration env).minify = true ↔
      (getConfiguration env).outDir = "dist") ∧
    ((getConfiguration env).minify = false ↔
      (getConfiguration env).outDir = "lib") ∧
    (getConfiguration (some "production")).outDir ≠
      (getConfiguration none).outDir := by
  refine ⟨?_, ?_, by decide⟩ <;>
    cases h : (env == some "production") <;>
      simp [getConfiguration, h]

/-- Claim C10: for every flag, `entry` is the fixed non-empty list with
main entry "src/index.ts" first followed by the glob "src/\x2a\x2a/\x2a.ts",
`format` is the single-element list ["esm"], and `target` is "es2020". -/
theorem constant_entry_format_target (env : Option String) :
    (getConfiguration env).entry = ["src/index.ts", "src/**/*.ts"] ∧
    (getConfiguration env).entry.head? = some "src/index.ts" ∧
    (getConfiguration env).entry ≠ [] ∧
    (getConfiguration env).format = ["esm"] ∧
    (getConfiguration env).target = "es2020" := by
  exact ⟨rfl, rfl, List.cons_ne_nil _ _, rfl, rfl⟩
